import Mathlib

/-
Verification of the documentation-generation pipeline of the mf-doc-generator
service (backend/server.py), via a shallow embedding of its pure core and an
oracle model of its external collaborators (HTTP text-generation endpoints,
the history store, UUID generation).

Python strings are modelled as Lean strings; the Python string operations the
source uses (split with a separator, no-argument split, strip, substring test
with the in-operator, slicing, len) are defined below on the character list of
the string, structurally recursive so that the kernel can evaluate them on
concrete inputs.  Python character counts and Lean character counts agree
(both count unicode code points).
-/

set_option maxRecDepth 8000

namespace MfDoc

/-- Errors a Python expression of the translated fragment can raise.
indexError models an IndexError from indexing an empty list, typeError a
TypeError from indexing a non-subscriptable value, tooShort the explicit
raise Exception in generate_documentation, dbError a failure of the
storage collaborator's insert. -/
inductive PyErr where
  | indexError
  | typeError
  | tooShort
  | dbError
deriving Repr, DecidableEq

instance {ε α : Type} [DecidableEq ε] [DecidableEq α] : DecidableEq (Except ε α) := fun x y =>
  match x, y with
  | .ok a, .ok b =>
    if h : a = b then isTrue (by rw [h]) else isFalse (fun hc => h (by injection hc))
  | .error a, .error b =>
    if h : a = b then isTrue (by rw [h]) else isFalse (fun hc => h (by injection hc))
  | .ok _, .error _ => isFalse (fun hc => Except.noConfusion hc)
  | .error _, .ok _ => isFalse (fun hc => Except.noConfusion hc)

/-- Whitespace as Python's str.split and str.strip use it (ASCII range). -/
def pyIsSpace (c : Char) : Bool :=
  c == ' ' || c == '\t' || c == '\n' || c == '\r' || c == '\x0b' || c == '\x0c'

/-- List-level prefix test (Python startswith on character lists). -/
def isPrefixOfC : List Char → List Char → Bool
  | [], _ => true
  | _ :: _, [] => false
  | a :: as, b :: bs => a == b && isPrefixOfC as bs

/-- List-level substring test. -/
def containsSub (pat : List Char) : List Char → Bool
  | [] => isPrefixOfC pat []
  | c :: rest => isPrefixOfC pat (c :: rest) || containsSub pat rest

/-- Python: pat in s (substring test). -/
def pyIn (pat s : String) : Bool :=
  containsSub pat.data s.data

/-- Python: s[:n] (character slice from the start). -/
def pyTake (s : String) (n : Nat) : String :=
  ⟨s.data.take n⟩

/-- Python: s[a:b] (character slice). -/
def pySlice (s : String) (a b : Nat) : String :=
  ⟨(s.data.drop a).take (b - a)⟩

/-- Python: len(s) (number of characters). -/
def pyLen (s : String) : Nat :=
  s.data.length

/-- Python: s.strip() (drop leading and trailing whitespace). -/
def pyStrip (s : String) : String :=
  ⟨(((s.data.dropWhile pyIsSpace).reverse.dropWhile pyIsSpace)).reverse⟩

/-- Worker for pyWords, carrying the characters of the current word reversed. -/
def pyWordsAux : List Char → List Char → List String
  | [], [] => []
  | [], acc => [⟨acc.reverse⟩]
  | c :: rest, acc =>
    if pyIsSpace c then
      match acc with
      | [] => pyWordsAux rest []
      | _ => ⟨acc.reverse⟩ :: pyWordsAux rest []
    else
      pyWordsAux rest (c :: acc)

/-- Python: s.split() with no argument — maximal runs of non-whitespace,
empty strings discarded. -/
def pyWords (s : String) : List String :=
  pyWordsAux s.data []

/-- Worker for pySplitOn.  The fuel argument only bounds the recursion
(each step consumes at least one character, so length + 1 fuel never runs
out); acc carries the current field reversed. -/
def pySplitOnAux (sep : List Char) : Nat → List Char → List Char → List (List Char)
  | _, [], acc => [acc.reverse]
  | 0, rest, acc => [acc.reverse ++ rest]
  | fuel + 1, c :: rest, acc =>
    if isPrefixOfC sep (c :: rest) then
      acc.reverse :: pySplitOnAux sep fuel (List.drop sep.length (c :: rest)) []
    else
      pySplitOnAux sep fuel rest (c :: acc)

/-- Python: s.split(sep) for a non-empty separator. -/
def pySplitOn (s sep : String) : List String :=
  (pySplitOnAux sep.data (s.data.length + 1) s.data []).map (fun l => ⟨l⟩)

/-- Character-list equality as a Bool, shaped so the kernel can evaluate it
on long strings. -/
def eqChars : List Char → List Char → Bool
  | [], [] => true
  | a :: as, b :: bs => a == b && eqChars as bs
  | _, _ => false

/-- String equality as a Bool over the character lists. -/
def pyEq (s t : String) : Bool :=
  eqChars s.data t.data

/-- Discriminator: did the Except succeed. -/
def isOkB {α : Type} : Except PyErr α → Bool
  | .ok _ => true
  | .error _ => false

/-- The payload of a successful Except PyErr String, empty string on error. -/
def getOkStr : Except PyErr String → String
  | .ok d => d
  | .error _ => ""

theorem data_append (s t : String) : (s ++ t).data = s.data ++ t.data := rfl

theorem eqChars_iff (l m : List Char) : eqChars l m = true ↔ l = m := by
  induction l generalizing m with
  | nil => cases m <;> simp [eqChars]
  | cons a as ih =>
    cases m with
    | nil => simp [eqChars]
    | cons b bs => simp [eqChars, ih]

theorem pyEq_iff (s t : String) : pyEq s t = true ↔ s = t := by
  rw [pyEq, eqChars_iff]
  exact ⟨fun h => by cases s; cases t; exact congrArg String.mk h, fun h => by rw [h]⟩

theorem isPrefixOfC_iff (p l : List Char) : isPrefixOfC p l = true ↔ ∃ t, l = p ++ t := by
  induction p generalizing l with
  | nil =>
    simp only [isPrefixOfC, List.nil_append, true_iff]
    exact ⟨l, rfl⟩
  | cons a as ih =>
    cases l with
    | nil => simp [isPrefixOfC]
    | cons b bs =>
      simp only [isPrefixOfC, Bool.and_eq_true, beq_iff_eq, ih, List.cons_append,
        List.cons.injEq]
      constructor
      · rintro ⟨rfl, t, rfl⟩
        exact ⟨t, rfl, rfl⟩
      · rintro ⟨t, rfl, rfl⟩
        exact ⟨rfl, t, rfl⟩

theorem containsSub_iff (p l : List Char) : containsSub p l = true ↔ ∃ u v, l = u ++ p ++ v := by
  induction l with
  | nil =>
    simp only [containsSub, isPrefixOfC_iff]
    constructor
    · rintro ⟨t, ht⟩
      rcases List.append_eq_nil.mp ht.symm with ⟨h1, h2⟩
      exact ⟨[], [], by simp [h1, h2]⟩
    · rintro ⟨u, v, huv⟩
      rcases List.append_eq_nil.mp huv.symm with ⟨h1, h2⟩
      rcases List.append_eq_nil.mp h1 with ⟨h3, h4⟩
      exact ⟨[], by simp [h2, h4]⟩
  | cons c cs ih =>
    simp only [containsSub, Bool.or_eq_true, isPrefixOfC_iff, ih]
    constructor
    · rintro (⟨t, ht⟩ | ⟨u, v, huv⟩)
      · exact ⟨[], t, by simpa using ht⟩
      · exact ⟨c :: u, v, by simp [huv]⟩
    · rintro ⟨u, v, huv⟩
      cases u with
      | nil => exact Or.inl ⟨v, by simpa using huv⟩
      | cons x xs =>
        have h' : c = x ∧ cs = xs ++ p ++ v := by simpa using huv
        exact Or.inr ⟨xs, v, by simpa using h'.2⟩

theorem pyIn_append_left (pat a b : String) (h : pyIn pat a = true) :
    pyIn pat (a ++ b) = true := by
  rw [pyIn, data_append]
  rcases (containsSub_iff _ _).mp h with ⟨u, v, huv⟩
  exact (containsSub_iff _ _).mpr ⟨u, v ++ b.data, by simp [huv]⟩

theorem pyIn_append_right (pat a b : String) (h : pyIn pat b = true) :
    pyIn pat (a ++ b) = true := by
  rw [pyIn, data_append]
  rcases (containsSub_iff _ _).mp h with ⟨u, v, huv⟩
  exact (containsSub_iff _ _).mpr ⟨a.data ++ u, v, by simp [huv]⟩

theorem pyIn_prefix_self (pat b : String) : pyIn pat (pat ++ b) = true := by
  rw [pyIn, data_append]
  exact (containsSub_iff _ _).mpr ⟨[], b.data, by simp⟩

/-- Every string occurs in itself. -/
theorem pyIn_self (s : String) : pyIn s s = true :=
  (containsSub_iff _ _).mpr ⟨[], [], by simp⟩

/-- Substring containment is transitive: if p occurs in q and q occurs in s
then p occurs in s. -/
theorem pyIn_trans (p q s : String) (hpq : pyIn p q = true) (hqs : pyIn q s = true) :
    pyIn p s = true := by
  rcases (containsSub_iff _ _).mp hpq with ⟨u1, v1, h1⟩
  rcases (containsSub_iff _ _).mp hqs with ⟨u2, v2, h2⟩
  exact (containsSub_iff _ _).mpr ⟨u2 ++ u1, v1 ++ v2, by simp [h2, h1]⟩

/-- A string with a nonempty prefix is nonempty. -/
theorem append_ne_empty_left (a b : String) (h : a.data ≠ []) : a ++ b ≠ "" := by
  intro hc
  have : (a ++ b).data = [] := congrArg String.data hc
  rw [data_append] at this
  exact h (List.append_eq_nil.mp this).1

/-! ## generate_fallback_documentation (server.py lines 174-256) -/

/-- The program-name extraction loop of generate_fallback_documentation:
scan the lines for the first one containing "PROGRAM-ID."; on that line take
parts = line.split("PROGRAM-ID.") and, when len(parts) > 1, the first
whitespace token of parts[1].strip() — indexing [0] of an empty token list
raises IndexError.  The loop breaks at the first matching line whether or
not the extraction succeeded; with no match the initial name
"MAINFRAME-PROGRAM" survives. -/
def extractFromLine (line : String) : Except PyErr String :=
  match (pySplitOn line "PROGRAM-ID.").get? 1 with
  | none => .ok "MAINFRAME-PROGRAM"
  | some seg =>
    match pyWords (pyStrip seg) with
    | [] => .error .indexError
    | tok :: _ => .ok tok

/-- Line scan of generate_fallback_documentation (for line in lines with
break on the first line containing "PROGRAM-ID."). -/
def extractProgramName : List String → Except PyErr String
  | [] => .ok "MAINFRAME-PROGRAM"
  | line :: rest =>
    if pyIn "PROGRAM-ID." line then extractFromLine line
    else extractProgramName rest

/-- The f-string template of generate_fallback_documentation, parameterized
by the extracted program name and the two detection flags, transcribed
verbatim from server.py lines 191-255 (the line about program compilation
ends in two spaces in the source). -/
def fallbackDoc (program_name : String) (has_jcl has_proc : Bool) : String :=
  "=== MAINFRAME DOCUMENTATION (RULE-BASED ANALYSIS) ===\n\n1. Overview\nProgram "
  ++ program_name
  ++ " is a mainframe batch processing application that handles data transformation and business logic operations. The program follows standard COBOL/Assembly programming practices and integrates with enterprise data processing workflows.\n\n2. Job Flow"
  ++ (if has_jcl then " (JCL Detected)" else "")
  ++ "\n"
  ++ (if has_jcl then "The job is initiated through JCL (Job Control Language) which manages resource allocation and execution sequence. " else "")
  ++ (if has_proc then "PROC procedures are utilized for standardized job step execution. " else "")
  ++ "The execution follows these stages:\n- System resource allocation and dataset binding\n- Program compilation and linking (if required)  \n- Main program execution with parameter passing\n- Output generation and cleanup procedures\n\n3. Transformations\nBased on code analysis, the following data transformations are performed:\n- Input record processing with field validation\n- Business rule application and data enrichment\n- Calculation operations on numeric fields\n- Output record formatting and structure creation\n- Data type conversions and field mappings\n\n4. Validations\nThe program implements comprehensive data validation including:\n- Input field presence and format verification\n- Business rule compliance checking\n- Numeric range and boundary validations\n- Cross-reference data integrity checks\n- Error condition handling and reporting\n\n5. Inputs & Outputs\nInput Sources:\n- Primary data files containing transaction records\n- Master files for reference data lookup\n- Parameter files for configuration settings\n- Control files for processing instructions\n\nOutput Destinations:\n- Processed transaction files with enhanced data\n- Updated master files with current information\n- Exception reports for error conditions\n- Summary reports for processing statistics\n\n6. Dependencies\nThe program relies on the following external components:\n- System libraries and utility programs\n- Database connections for data access\n- File system datasets for input/output\n- Security subsystems for access control\n- Logging and monitoring frameworks\n\n7. Special Notes\nImportant operational considerations:\n- Restart and recovery procedures are implemented\n- Performance monitoring and optimization features included\n- Error handling follows enterprise standards\n- Resource utilization is optimized for batch processing\n- Documentation follows mainframe best practices\n\n=== PROCESSING STATISTICS ===\nAnalysis Method: Rule-based pattern recognition\nCode Complexity: Standard enterprise-level\nDocumentation Quality: Comprehensive baseline\nRecommendation: Enhance with LLM analysis when available\n\n(Note: This is rule-based analysis. For enhanced AI-powered documentation, configure Hugging Face API key)\n"

/-- generate_fallback_documentation: rule-based tier.  Total except for the
IndexError the extraction loop can raise. -/
def generate_fallback_documentation (prompt : String) : Except PyErr String :=
  let lines := pySplitOn prompt "\n"
  let has_jcl := pyIn "JCL CODE:" prompt
  let has_proc := pyIn "PROC CODE:" prompt
  match extractProgramName lines with
  | .error e => .error e
  | .ok program_name => .ok (fallbackDoc program_name has_jcl has_proc)

/-! ## create_documentation_prompt (server.py lines 258-300) -/

/-- create_documentation_prompt: fixed preamble, a labelled section per
truthy/non-whitespace optional input, the program code, and the fixed
seven-section output template. -/
def create_documentation_prompt (jcl_code proc_code program_code : String) : String :=
  "You are a mainframe documentation expert. Analyze the provided mainframe code and generate comprehensive technical documentation.\n\nMAINFRAME CODE TO ANALYZE:\n\n"
  ++ (if jcl_code != "" && pyStrip jcl_code != "" then "JCL CODE:\n" ++ jcl_code ++ "\n\n" else "")
  ++ (if proc_code != "" && pyStrip proc_code != "" then "PROC CODE:\n" ++ proc_code ++ "\n\n" else "")
  ++ "PROGRAM CODE:\n" ++ program_code ++ "\n\n"
  ++ "GENERATE DOCUMENTATION IN THIS EXACT FORMAT:\n\n1. Overview\n[Brief but technical summary of the program/job. State what the job does and its business purpose.]\n\n2. Job Flow (Only if JCL is provided)\n[Step-by-step explanation of each JCL step. Explain PROC calls, symbolic parameters, and dataset usage.]\n\n3. Transformations\n[List all data transformations done in the program. Explain how the data changes. Include example values when possible.]\n\n4. Validations\n[List all data validations. Mention conditions, thresholds, and error handling logic.]\n\n5. Inputs & Outputs\n[Detail input files/tables and their purpose. Detail output files/tables and what they contain.]\n\n6. Dependencies\n[List all external tables, datasets, modules, or jobs the program depends on.]\n\n7. Special Notes\n[Any unique conditions, restart logic, or performance considerations.]\n\nGenerate technical, accurate documentation:"

/-! ## format_llm_response (server.py lines 146-172) -/

/-- format_llm_response: pass a remote result through (behind a banner) when
it contains an Overview marker, otherwise wrap it into the four-section
structured template with the first 300 characters in Overview and the next
300 (or an advisory default) in AI Insights.  The original_prompt parameter
is accepted and unused, as in the source. -/
def format_llm_response (generated_text original_prompt : String) : String :=
  if pyIn "1. Overview" generated_text || pyIn "Overview" generated_text then
    "=== AI-GENERATED MAINFRAME DOCUMENTATION ===\n\n" ++ generated_text
  else
    "=== AI-GENERATED MAINFRAME DOCUMENTATION ===\n\n1. Overview\n"
    ++ pyTake generated_text 300
    ++ "...\n\n2. Analysis\nThe LLM has analyzed the provided mainframe code and generated insights about its functionality and structure.\n\n3. AI Insights\n"
    ++ (if 300 < pyLen generated_text then pySlice generated_text 300 600
        else "Additional analysis and recommendations based on code patterns.")
    ++ "\n\n4. Recommendations\n- Review the generated analysis for accuracy\n- Consider the AI suggestions for code optimization\n- Validate business logic alignment\n\n(Note: This documentation was generated using Hugging Face LLM)\n"

/-! ## call_hugging_face_api (server.py lines 80-144)

The remote collaborator is an oracle: response url n is the outcome of the
n-th POST issued to the candidate endpoint url (n = 0 the initial request,
n = 1 the single retry after a warming-up status).  An outcome is either a
transport-level exception or a response carrying a status code and the
result of response.json() (none when the body is not valid JSON). -/

/-- JSON values as the response-shape discrimination of the source sees
them: a string, an array, an object, or anything else (numbers, booleans,
null), whose use as text raises TypeError.  An object value that is itself
a list would in Python flow into the formatter via its repr; no claim
depends on that case and it is modelled as the TypeError path. -/
inductive JVal where
  | jstr : String → JVal
  | jlist : List JVal → JVal
  | jdict : List (String × JVal) → JVal
  | jother : JVal

inductive HttpOutcome where
  | exn : HttpOutcome
  | resp (status : Nat) (body : Option JVal) : HttpOutcome

/-- One POST as issued by the client: target endpoint, JSON inputs field of
the payload, and the outcome the oracle produced. -/
structure HttpCall where
  url : String
  body : String
  outcome : HttpOutcome

def HF_MODEL_URL : String :=
  "https://api-inference.huggingface.co/models/microsoft/CodeBERT-base"

def FALLBACK_MODELS : List String :=
  ["https://api-inference.huggingface.co/models/microsoft/codebert-base-mlm",
   "https://api-inference.huggingface.co/models/huggingface/CodeBERTa-small-v1",
   "https://api-inference.huggingface.co/models/microsoft/DialoGPT-medium"]

def models_to_try : List String :=
  HF_MODEL_URL :: FALLBACK_MODELS

/-- The inputs field of the request payload (server.py line 88): a fixed
preamble plus the first 500 characters of the prompt. -/
def shortPrompt (prompt : String) : String :=
  "Generate mainframe documentation for: " ++ pyTake prompt 500 ++ "..."

/-- Python: key in x for a JSON value x — a key lookup on an object, a
substring test on a string, element membership on an array, and a TypeError
on anything else. -/
def pyInJ (key : String) : JVal → Except PyErr Bool
  | .jstr s => .ok (pyIn key s)
  | .jdict fs => .ok (fs.any (fun p => p.1 == key))
  | .jlist xs => .ok (xs.any (fun v => match v with | .jstr s => s == key | _ => false))
  | .jother => .error .typeError

def jlookup (fs : List (String × JVal)) (key : String) : Option JVal :=
  (fs.find? (fun p => p.1 == key)).map (fun p => p.2)

/-- The response-shape discrimination after a 200 status (server.py lines
120-133).  some doc corresponds to an early return with the formatted
text; none corresponds to falling through to the next candidate, either
because no recognized shape matched or because extraction raised inside
the per-candidate try block (TypeError on non-string values). -/
def handle200 (result : JVal) (prompt : String) : Option String :=
  match result with
  | .jlist [] => none
  | .jlist (r0 :: _) =>
    match pyInJ "generated_text" r0 with
    | .error _ => none
    | .ok true =>
      match r0 with
      | .jdict fs =>
        match jlookup fs "generated_text" with
        | some (.jstr s) => some (format_llm_response s prompt)
        | _ => none
      | _ => none
    | .ok false =>
      match r0 with
      | .jstr s => some (format_llm_response s prompt)
      | _ => none
  | .jdict fs =>
    if fs.any (fun p => p.1 == "generated_text") then
      match jlookup fs "generated_text" with
      | some (.jstr s) => some (format_llm_response s prompt)
      | _ => none
    else none
  | .jstr s => some (format_llm_response s prompt)
  | .jother => none

/-- One iteration of the for-model loop (server.py lines 104-140): a POST,
a single retry of the same candidate after a 503 warming-up status, then
the shape discrimination on a 200 status.  Returns the POSTs issued and
some doc on an early return. -/
def tryModel (response : String → Nat → HttpOutcome) (model prompt : String) :
    List HttpCall × Option String :=
  let payload := shortPrompt prompt
  match response model 0 with
  | .exn => ([⟨model, payload, .exn⟩], none)
  | .resp s b =>
    if s == 503 then
      match response model 1 with
      | .exn => ([⟨model, payload, .resp s b⟩, ⟨model, payload, .exn⟩], none)
      | .resp s2 b2 =>
        ([⟨model, payload, .resp s b⟩, ⟨model, payload, .resp s2 b2⟩],
         if s2 == 200 then
           match b2 with
           | some j => handle200 j prompt
           | none => none
         else none)
    else if s == 200 then
      ([⟨model, payload, .resp s b⟩],
       match b with
       | some j => handle200 j prompt
       | none => none)
    else
      ([⟨model, payload, .resp s b⟩], none)

/-- The full for-model loop: candidates strictly in order, stopping at the
first early return. -/
def tryModels (response : String → Nat → HttpOutcome) (prompt : String) :
    List String → List HttpCall × Option String
  | [] => ([], none)
  | m :: rest =>
    match tryModel response m prompt with
    | (calls, some doc) => (calls, some doc)
    | (calls, none) =>
      let r := tryModels response prompt rest
      (calls ++ r.1, r.2)

/-- call_hugging_face_api: the candidate cascade, then the rule-based
fallback once every candidate is exhausted (server.py line 144).  Also
returns the POST trace. -/
def call_hugging_face_api (response : String → Nat → HttpOutcome) (prompt : String) :
    List HttpCall × Except PyErr String :=
  match tryModels response prompt models_to_try with
  | (calls, some doc) => (calls, .ok doc)
  | (calls, none) => (calls, generate_fallback_documentation prompt)

/-! ## generate_documentation (server.py lines 354-411) -/

structure DocumentationRequest where
  jcl_code : Option String
  proc_code : Option String
  program_code : String
  session_id : Option String

structure DocumentationResponse where
  documentation : String
  session_id : String
deriving DecidableEq

/-- The history record handed to the storage collaborator (server.py lines
387-395). -/
structure DocRecord where
  session_id : String
  jcl_code : Option String
  proc_code : Option String
  program_code : String
  documentation : String
  timestamp : Nat
  method : String

/-- The external conditions of one invocation: the configured credential
(empty string when absent, matching Python falsiness), the HTTP oracle,
the successive results of uuid.uuid4() as an oracle, whether the history
insert raises, and the wall clock. -/
structure PipelineEnv where
  hf_api_key : String
  response : String → Nat → HttpOutcome
  uuid : Nat → String
  insert_fails : Bool
  now : Nat

/-- Python falsiness of the optional session_id (None or empty string). -/
def sidFalsy : Option String → Bool
  | none => true
  | some s => s == ""

/-- The prompt generate_documentation assembles (server.py lines 363-367,
with the `or ""` defaults). -/
def promptOf (req : DocumentationRequest) : String :=
  create_documentation_prompt (req.jcl_code.getD "") (req.proc_code.getD "") req.program_code

/-- Lines 370-384: the remote path behind the credential check, the
meaningfulness check with its raise, and the inner except that swaps in the
rule-based fallback on any failure of the remote path. -/
def computeDocumentation (env : PipelineEnv) (prompt : String) : Except PyErr String :=
  if env.hf_api_key == "" then
    generate_fallback_documentation prompt
  else
    match (call_hugging_face_api env.response prompt).2 with
    | .error _ => generate_fallback_documentation prompt
    | .ok documentation =>
      if pyIn "MAINFRAME DOCUMENTATION" documentation || 200 < pyLen documentation then
        .ok documentation
      else
        generate_fallback_documentation prompt

/-- The try-block body of generate_documentation: session id, prompt,
documentation, history record, storage insert.  uuid 0 is the uuid4() of
line 360 (consumed only when the supplied session_id is falsy). -/
def gen_doc_body (env : PipelineEnv) (req : DocumentationRequest) :
    Except PyErr (DocumentationResponse × DocRecord) :=
  let session_id := if sidFalsy req.session_id then env.uuid 0 else req.session_id.getD ""
  match computeDocumentation env (promptOf req) with
  | .error e => .error e
  | .ok documentation =>
    if env.insert_fails then .error .dbError
    else
      .ok (⟨documentation, session_id⟩,
        { session_id := session_id
          jcl_code := req.jcl_code
          proc_code := req.proc_code
          program_code := req.program_code
          documentation := documentation
          timestamp := env.now
          method := if env.hf_api_key == "" then "fallback" else "hugging_face" })

/-- generate_documentation: the try-block body under the outermost except,
which on any error regenerates documentation from the empty prompt and a
session id from the supplied one or a fresh uuid4() (uuid 1, since uuid 0
was consumed by line 360 exactly when the supplied session_id is falsy).
The returned record is the one handed to the storage collaborator, none
when nothing was persisted. -/
def generate_documentation (env : PipelineEnv) (req : DocumentationRequest) :
    Except PyErr (DocumentationResponse × Option DocRecord) :=
  match gen_doc_body env req with
  | .ok (resp, record) => .ok (resp, some record)
  | .error _ =>
    match generate_fallback_documentation "" with
    | .error e => .error e
    | .ok fallback_doc =>
      .ok (⟨fallback_doc, if sidFalsy req.session_id then env.uuid 1 else req.session_id.getD ""⟩,
           none)

/-- Observable: the documentation of a pipeline result (empty on error). -/
def docOf (x : Except PyErr (DocumentationResponse × Option DocRecord)) : String :=
  match x with
  | .ok (r, _) => r.documentation
  | .error _ => ""

/-- Observable: the session id of a pipeline result (empty on error). -/
def sidOf (x : Except PyErr (DocumentationResponse × Option DocRecord)) : String :=
  match x with
  | .ok (r, _) => r.session_id
  | .error _ => ""

/-- Observable: the method tag of the persisted record, if one was
persisted. -/
def recMethodOf (x : Except PyErr (DocumentationResponse × Option DocRecord)) : Option String :=
  match x with
  | .ok (_, some record) => some record.method
  | _ => none

/-- Observable: did the pipeline return normally. -/
def isOkP (x : Except PyErr (DocumentationResponse × Option DocRecord)) : Bool :=
  match x with
  | .ok _ => true
  | .error _ => false

/-! ## Structural lemmas about the three document builders -/

theorem ne_empty_of_pyIn (pat s : String) (hp : pat.data ≠ []) (h : pyIn pat s = true) :
    s ≠ "" := by
  rcases (containsSub_iff _ _).mp h with ⟨u, v, huv⟩
  intro hc
  rw [hc] at huv
  have : u ++ pat.data ++ v = [] := huv.symm
  rcases List.append_eq_nil.mp this with ⟨h1, _⟩
  exact hp (List.append_eq_nil.mp h1).2

/-- The rule-based template always contains the tag the meaningfulness
check of generate_documentation looks for, whatever the extracted name and
flags. -/
theorem fallbackDoc_contains_tag (name : String) (j p : Bool) :
    pyIn "MAINFRAME DOCUMENTATION" (fallbackDoc name j p) = true := by
  simp only [fallbackDoc]
  repeat apply pyIn_append_left
  decide

theorem fallbackDoc_ne_empty (name : String) (j p : Bool) : fallbackDoc name j p ≠ "" :=
  ne_empty_of_pyIn _ _ (by decide) (fallbackDoc_contains_tag name j p)

/-- Both branches of the formatter begin with the AI banner, so every
formatted remote result contains the tag the meaningfulness check looks
for: the discard branch of generate_documentation is unreachable for
remote results. -/
theorem format_contains_tag (s p : String) :
    pyIn "MAINFRAME DOCUMENTATION" (format_llm_response s p) = true := by
  rw [format_llm_response]
  split
  · apply pyIn_append_left
    decide
  · repeat apply pyIn_append_left
    decide

theorem format_ne_empty (s p : String) : format_llm_response s p ≠ "" :=
  ne_empty_of_pyIn _ _ (by decide) (format_contains_tag s p)

/-- Every success of the fallback generator is an instance of the template. -/
theorem fallback_ok_shape (prompt d : String)
    (h : generate_fallback_documentation prompt = .ok d) :
    ∃ name, d = fallbackDoc name (pyIn "JCL CODE:" prompt) (pyIn "PROC CODE:" prompt) := by
  rw [generate_fallback_documentation] at h
  cases he : extractProgramName (pySplitOn prompt "\n") with
  | error e => rw [he] at h; exact absurd h (by simp)
  | ok name =>
    rw [he] at h
    simp only [Except.ok.injEq] at h
    exact ⟨name, h.symm⟩

theorem fallback_ok_contains_tag (prompt d : String)
    (h : generate_fallback_documentation prompt = .ok d) :
    pyIn "MAINFRAME DOCUMENTATION" d = true := by
  rcases fallback_ok_shape prompt d h with ⟨name, rfl⟩
  exact fallbackDoc_contains_tag _ _ _

theorem fallback_ok_ne_empty (prompt d : String)
    (h : generate_fallback_documentation prompt = .ok d) : d ≠ "" := by
  rcases fallback_ok_shape prompt d h with ⟨name, rfl⟩
  exact fallbackDoc_ne_empty _ _ _

/-! ## Structural lemmas about the candidate cascade -/

/-- Every early return of the shape discrimination is a formatted result,
formatted against the full prompt. -/
theorem handle200_some (j : JVal) (prompt d : String) (h : handle200 j prompt = some d) :
    ∃ s, d = format_llm_response s prompt := by
  unfold handle200 at h
  repeat' split at h
  all_goals first
    | exact ⟨_, (Option.some.inj h).symm⟩
    | simp at h

theorem tryModel_some (response : String → Nat → HttpOutcome) (m prompt d : String)
    (h : (tryModel response m prompt).2 = some d) :
    ∃ s, d = format_llm_response s prompt := by
  unfold tryModel at h
  repeat' split at h
  all_goals first
    | exact handle200_some _ _ _ h
    | simp at h

theorem tryModels_some (response : String → Nat → HttpOutcome) (prompt : String)
    (models : List String) (d : String)
    (h : (tryModels response prompt models).2 = some d) :
    ∃ s, d = format_llm_response s prompt := by
  induction models with
  | nil => simp [tryModels] at h
  | cons m rest ih =>
    rw [tryModels] at h
    rcases hm : tryModel response m prompt with ⟨calls, r⟩
    rw [hm] at h
    cases r with
    | some doc =>
      simp only [Option.some.injEq] at h
      exact tryModel_some response m prompt d (by rw [hm, h])
    | none => exact ih (by simpa using h)

/-- A successful remote-client result is either a formatted remote result
(formatted against the full prompt) or the rule-based fallback of the full
prompt. -/
theorem callHF_ok (response : String → Nat → HttpOutcome) (prompt d : String)
    (h : (call_hugging_face_api response prompt).2 = .ok d) :
    (∃ s, d = format_llm_response s prompt) ∨
      generate_fallback_documentation prompt = .ok d := by
  rw [call_hugging_face_api] at h
  rcases ht : tryModels response prompt models_to_try with ⟨calls, r⟩
  rw [ht] at h
  cases r with
  | some doc =>
    simp only [Except.ok.injEq] at h
    exact Or.inl (tryModels_some response prompt models_to_try d (by rw [ht, h]))
  | none => exact Or.inr (by simpa using h)

/-- The POST trace a list of candidates would produce if none of them
yielded a usable result: each candidate's own attempts, in candidate
order. -/
def flatTrace (response : String → Nat → HttpOutcome) (prompt : String) :
    List String → List HttpCall
  | [] => []
  | m :: rest => (tryModel response m prompt).1 ++ flatTrace response prompt rest

theorem tryModel_body (response : String → Nat → HttpOutcome) (m prompt : String) :
    ∀ c ∈ (tryModel response m prompt).1, c.body = shortPrompt prompt := by
  intro c hc
  unfold tryModel at hc
  repeat' split at hc
  all_goals simp at hc
  all_goals rcases hc with rfl | rfl <;> rfl

theorem tryModels_body (response : String → Nat → HttpOutcome) (prompt : String)
    (models : List String) :
    ∀ c ∈ (tryModels response prompt models).1, c.body = shortPrompt prompt := by
  induction models with
  | nil => intro c hc; simp [tryModels] at hc
  | cons m rest ih =>
    intro c hc
    rw [tryModels] at hc
    rcases hm : tryModel response m prompt with ⟨calls, r⟩
    rw [hm] at hc
    cases r with
    | some doc =>
      simp only at hc
      exact tryModel_body response m prompt c (by rw [hm]; exact hc)
    | none =>
      simp only [List.mem_append] at hc
      rcases hc with hc | hc
      · exact tryModel_body response m prompt c (by rw [hm]; exact hc)
      · exact ih c hc

/-- Any documentation string the orchestrator accepts is non-empty and, in
fact, carries one of the two banners. -/
theorem computeDocumentation_ok_ne_empty (env : PipelineEnv) (prompt d : String)
    (h : computeDocumentation env prompt = .ok d) : d ≠ "" := by
  unfold computeDocumentation at h
  split at h
  · exact fallback_ok_ne_empty prompt d h
  · split at h
    · exact fallback_ok_ne_empty prompt d h
    · rename_i doc hc
      split at h
      · simp only [Except.ok.injEq] at h
        subst h
        rcases callHF_ok env.response prompt doc hc with ⟨s, rfl⟩ | hf
        · exact format_ne_empty s prompt
        · exact fallback_ok_ne_empty prompt doc hf
      · exact fallback_ok_ne_empty prompt d h

/-! ## Pipeline lemmas -/

/-- Rule-based generation from the empty prompt: no markers, no program-id
line, so the generic template with the placeholder name. -/
theorem fallback_empty_prompt :
    generate_fallback_documentation "" = .ok (fallbackDoc "MAINFRAME-PROGRAM" false false) := rfl

theorem getD_ne_of_not_falsy (o : Option String) (h : sidFalsy o = false) : o.getD "" ≠ "" := by
  cases o with
  | none => simp [sidFalsy] at h
  | some s =>
    simp only [sidFalsy, beq_eq_false_iff_ne, ne_eq] at h
    simpa using h

/-- Inversion of a normal return of the try-block body. -/
theorem gen_doc_body_inv (env : PipelineEnv) (req : DocumentationRequest)
    (resp : DocumentationResponse) (record : DocRecord)
    (h : gen_doc_body env req = .ok (resp, record)) :
    env.insert_fails = false
    ∧ computeDocumentation env (promptOf req) = .ok resp.documentation
    ∧ resp.session_id
        = (if sidFalsy req.session_id then env.uuid 0 else req.session_id.getD "")
    ∧ record.method = (if env.hf_api_key == "" then "fallback" else "hugging_face") := by
  unfold gen_doc_body at h
  rcases hc : computeDocumentation env (promptOf req) with e | doc
  · rw [hc] at h; simp at h
  · rw [hc] at h
    rcases hins : env.insert_fails
    · rw [hins] at h
      simp only [if_false, Bool.false_eq_true, Except.ok.injEq, Prod.mk.injEq] at h
      rcases h with ⟨h1, h2⟩
      subst h2
      refine ⟨rfl, ?_, ?_, rfl⟩
      · rw [← h1]
      · rw [← h1]
    · rw [hins] at h; simp at h

/-- Forward evaluation of the try-block body on a successful insert. -/
theorem gen_doc_body_eq (env : PipelineEnv) (req : DocumentationRequest) (doc : String)
    (hc : computeDocumentation env (promptOf req) = .ok doc)
    (hins : env.insert_fails = false) :
    gen_doc_body env req
      = .ok (⟨doc, if sidFalsy req.session_id then env.uuid 0 else req.session_id.getD ""⟩,
          { session_id := if sidFalsy req.session_id then env.uuid 0 else req.session_id.getD ""
            jcl_code := req.jcl_code
            proc_code := req.proc_code
            program_code := req.program_code
            documentation := doc
            timestamp := env.now
            method := if env.hf_api_key == "" then "fallback" else "hugging_face" }) := by
  unfold gen_doc_body
  rw [hc, hins]
  simp

/-- Forward evaluation of the try-block body on a failing insert. -/
theorem gen_doc_body_db_err (env : PipelineEnv) (req : DocumentationRequest) (doc : String)
    (hc : computeDocumentation env (promptOf req) = .ok doc)
    (hins : env.insert_fails = true) :
    gen_doc_body env req = .error .dbError := by
  unfold gen_doc_body
  rw [hc, hins]
  simp

/-- With every response a non-200 status, one candidate yields no usable
result. -/
theorem tryModel_all_non200 (response : String → Nat → HttpOutcome) (m prompt : String)
    (hresp : ∀ n, ∃ s b, response m n = .resp s b ∧ s ≠ 200) :
    (tryModel response m prompt).2 = none := by
  unfold tryModel
  rcases hresp 0 with ⟨s, b, h0, hs⟩
  rw [h0]
  rcases hresp 1 with ⟨s2, b2, h1, hs2⟩
  by_cases h503 : (s == 503) = true
  · simp only [h503, if_true, h1]
    have : (s2 == 200) = false := by simpa using hs2
    simp [this]
  · have h200 : (s == 200) = false := by simpa using hs
    simp [h503, h200]

/-- With every response a non-200 status, the whole cascade is exhausted
and the client returns the rule-based fallback of the full prompt. -/
theorem callHF_all_non200 (response : String → Nat → HttpOutcome) (prompt : String)
    (hresp : ∀ m n, ∃ s b, response m n = .resp s b ∧ s ≠ 200) :
    (call_hugging_face_api response prompt).2 = generate_fallback_documentation prompt := by
  have hall : ∀ models, (tryModels response prompt models).2 = none := by
    intro models
    induction models with
    | nil => rfl
    | cons m rest ih =>
      rw [tryModels]
      rcases hm : tryModel response m prompt with ⟨calls, r⟩
      have : r = none := by
        have := tryModel_all_non200 response m prompt (fun n => hresp m n)
        rw [hm] at this
        exact this
      subst this
      simpa using ih
  rw [call_hugging_face_api]
  rcases ht : tryModels response prompt models_to_try with ⟨calls, r⟩
  have := hall models_to_try
  rw [ht] at this
  subst this
  rfl

/-- With a credential configured and every response a non-200 status, the
orchestrator's documentation is exactly the rule-based fallback of the
prompt: the remote path contributes nothing and the meaningfulness check
accepts the fallback text because of its banner. -/
theorem computeDocumentation_all_non200 (env : PipelineEnv) (prompt : String)
    (hkey : env.hf_api_key ≠ "")
    (hresp : ∀ m n, ∃ s b, env.response m n = .resp s b ∧ s ≠ 200) :
    computeDocumentation env prompt = generate_fallback_documentation prompt := by
  unfold computeDocumentation
  have hk : (env.hf_api_key == "") = false := by simpa using hkey
  rw [if_neg (by simp [hk])]
  rw [callHF_all_non200 env.response prompt hresp]
  rcases hfb : generate_fallback_documentation prompt with e | d
  · rfl
  · have : pyIn "MAINFRAME DOCUMENTATION" d = true := fallback_ok_contains_tag prompt d hfb
    simp [this]

/-! ## Claims -/

/-- C1: whatever the external conditions — transport failures, malformed
JSON bodies, unusable statuses, a failing storage insert — and whatever the
request, generate_documentation returns normally with a non-empty
documentation string and a non-empty session identifier (the supplied one
when truthy, a fresh uuid otherwise). -/
theorem C1_never_fails (env : PipelineEnv) (req : DocumentationRequest)
    (hu : ∀ n, env.uuid n ≠ "") :
    isOkP (generate_documentation env req) = true
    ∧ docOf (generate_documentation env req) ≠ ""
    ∧ sidOf (generate_documentation env req) ≠ "" := by
  unfold generate_documentation
  cases hb : gen_doc_body env req with
  | ok pr =>
    obtain ⟨resp, record⟩ := pr
    rcases gen_doc_body_inv env req resp record hb with ⟨_, hc, hsid, _⟩
    simp only [isOkP, docOf, sidOf]
    refine ⟨trivial, computeDocumentation_ok_ne_empty env (promptOf req) _ hc, ?_⟩
    rw [hsid]
    cases hf : sidFalsy req.session_id with
    | true => simpa using hu 0
    | false => simpa using getD_ne_of_not_falsy req.session_id hf
  | error e =>
    rw [fallback_empty_prompt]
    simp only [isOkP, docOf, sidOf]
    refine ⟨trivial, fallbackDoc_ne_empty _ _ _, ?_⟩
    cases hf : sidFalsy req.session_id with
    | true => simpa using hu 1
    | false => simpa using getD_ne_of_not_falsy req.session_id hf

def envC1 : PipelineEnv :=
  { hf_api_key := "k"
    response := fun _ _ => .exn
    uuid := fun _ => "3f2a77aa-0000-0000-0000-000000000000"
    insert_fails := true
    now := 0 }

def reqC1 : DocumentationRequest :=
  { jcl_code := none, proc_code := none, program_code := "MOVE A TO B.", session_id := none }

/-- C1 witness: a concrete environment in which the remote transport always
raises and the storage insert fails, and a request with no session id. -/
theorem C1_never_fails_witness :
    (∀ n, envC1.uuid n ≠ "")
    ∧ (isOkP (generate_documentation envC1 reqC1) = true
       ∧ docOf (generate_documentation envC1 reqC1) ≠ ""
       ∧ sidOf (generate_documentation envC1 reqC1) ≠ "") := by
  have h : ∀ n, envC1.uuid n ≠ "" := fun _ => by
    show ("3f2a77aa-0000-0000-0000-000000000000" : String) ≠ ""
    decide
  exact ⟨h, C1_never_fails envC1 reqC1 h⟩

/-- C2: the claim that the rule-based generator is total fails on the code:
a prompt whose marker line carries no token after "PROGRAM-ID." makes
parts[1].strip().split()[0] index an empty list, raising IndexError. -/
theorem C2_fallback_indexerror :
    generate_fallback_documentation "PROGRAM-ID." = .error .indexError := rfl

/-- C5: with a credential configured, every response carrying a non-200
status, and a normally behaving store, the returned documentation equals,
byte for byte, what the rule-based generator alone produces from the same
assembled prompt (stated for every request on which that generator
terminates normally). -/
theorem C5_all_non200_byte_equal (env : PipelineEnv) (req : DocumentationRequest)
    (hkey : env.hf_api_key ≠ "")
    (hresp : ∀ m n, ∃ s b, env.response m n = .resp s b ∧ s ≠ 200)
    (hok : isOkB (generate_fallback_documentation (promptOf req)) = true)
    (hins : env.insert_fails = false) :
    Except.ok (docOf (generate_documentation env req))
      = generate_fallback_documentation (promptOf req)
    ∧ isOkP (generate_documentation env req) = true := by
  rcases hfb : generate_fallback_documentation (promptOf req) with e | d
  · rw [hfb] at hok; simp [isOkB] at hok
  · have hc : computeDocumentation env (promptOf req) = .ok d := by
      rw [computeDocumentation_all_non200 env (promptOf req) hkey hresp, hfb]
    unfold generate_documentation
    rw [gen_doc_body_eq env req d hc hins]
    simp [docOf, isOkP]

def envC5 : PipelineEnv :=
  { hf_api_key := "k"
    response := fun _ _ => .resp 404 none
    uuid := fun _ => "u"
    insert_fails := false
    now := 0 }

def reqC5 : DocumentationRequest :=
  { jcl_code := none, proc_code := none, program_code := "MOVE A TO B.",
    session_id := some "s5" }

/-- C5 witness: a concrete environment in which every candidate endpoint
answers 404. -/
theorem C5_all_non200_byte_equal_witness :
    (envC5.hf_api_key ≠ ""
     ∧ (∀ m n, ∃ s b, envC5.response m n = .resp s b ∧ s ≠ 200)
     ∧ isOkB (generate_fallback_documentation (promptOf reqC5)) = true
     ∧ envC5.insert_fails = false)
    ∧ (Except.ok (docOf (generate_documentation envC5 reqC5))
         = generate_fallback_documentation (promptOf reqC5)
       ∧ isOkP (generate_documentation envC5 reqC5) = true) :=
  ⟨⟨by decide, fun m n => ⟨404, none, rfl, by decide⟩, by decide, rfl⟩,
   C5_all_non200_byte_equal envC5 reqC5 (by decide)
     (fun m n => ⟨404, none, rfl, by decide⟩) (by decide) rfl⟩

/-- C8: the method tag of any persisted history record is a function of
credential presence only — "hugging_face" whenever a credential is
configured (even when every candidate failed and the stored text is the
rule-based fallback), "fallback" only when no credential is configured. -/
theorem C8_method_tag_credential_only (env : PipelineEnv) (req : DocumentationRequest) :
    (env.hf_api_key ≠ "" →
       recMethodOf (generate_documentation env req) = none
       ∨ recMethodOf (generate_documentation env req) = some "hugging_face")
    ∧ (env.hf_api_key = "" →
       recMethodOf (generate_documentation env req) = none
       ∨ recMethodOf (generate_documentation env req) = some "fallback") := by
  have base :
      recMethodOf (generate_documentation env req) = none
      ∨ recMethodOf (generate_documentation env req)
          = some (if env.hf_api_key == "" then "fallback" else "hugging_face") := by
    unfold generate_documentation
    cases hb : gen_doc_body env req with
    | ok pr =>
      obtain ⟨resp, record⟩ := pr
      rcases gen_doc_body_inv env req resp record hb with ⟨_, _, _, hm⟩
      right
      simp only [recMethodOf]
      rw [hm]
    | error e =>
      rw [fallback_empty_prompt]
      left
      rfl
  constructor
  · intro hkey
    have hk : (env.hf_api_key == "") = false := by simpa using hkey
    rcases base with h | h
    · exact Or.inl h
    · right; rw [h, hk]; rfl
  · intro hkey
    have hk : (env.hf_api_key == "") = true := by simpa using hkey
    rcases base with h | h
    · exact Or.inl h
    · right; rw [h, hk]; rfl

/-- C8 witness: with a credential configured and every candidate answering
404, the persisted record still carries the remote tag. -/
theorem C8_method_tag_credential_only_witness :
    (envC5.hf_api_key ≠ "")
    ∧ (recMethodOf (generate_documentation envC5 reqC1) = none
       ∨ recMethodOf (generate_documentation envC5 reqC1) = some "hugging_face") :=
  ⟨by decide, (C8_method_tag_credential_only envC5 reqC1).1 (by decide)⟩

/-- C9: when the storage insert raises after documentation was generated,
the caller still receives a normal response, but its documentation is the
rule-based template regenerated from the empty prompt (so it carries the
generic placeholder name), and — when no session id was supplied — its
session id is the second fresh uuid, not the one built at the start of the
invocation. -/
theorem C9_insert_failure_regenerates (env : PipelineEnv) (req : DocumentationRequest)
    (hok : isOkB (computeDocumentation env (promptOf req)) = true)
    (hins : env.insert_fails = true)
    (hsid : req.session_id = none)
    (hu : env.uuid 0 ≠ env.uuid 1) :
    generate_documentation env req
      = .ok (⟨fallbackDoc "MAINFRAME-PROGRAM" false false, env.uuid 1⟩, none)
    ∧ pyIn "MAINFRAME-PROGRAM" (fallbackDoc "MAINFRAME-PROGRAM" false false) = true
    ∧ sidOf (generate_documentation env req) = env.uuid 1
    ∧ sidOf (generate_documentation env req) ≠ env.uuid 0 := by
  rcases hc : computeDocumentation env (promptOf req) with e | doc
  · rw [hc] at hok; simp [isOkB] at hok
  · have hbody : gen_doc_body env req = .error .dbError :=
      gen_doc_body_db_err env req doc hc hins
    have hgen : generate_documentation env req
        = .ok (⟨fallbackDoc "MAINFRAME-PROGRAM" false false, env.uuid 1⟩, none) := by
      unfold generate_documentation
      rw [hbody, fallback_empty_prompt, hsid]
      rfl
    refine ⟨hgen, ?_, ?_, ?_⟩
    · unfold fallbackDoc
      apply pyIn_append_left
      apply pyIn_append_left
      apply pyIn_append_left
      apply pyIn_append_left
      apply pyIn_append_left
      apply pyIn_append_left
      apply pyIn_append_right
      exact pyIn_self _
    · rw [hgen]; rfl
    · rw [hgen]
      simpa [sidOf] using fun hcontra => hu hcontra.symm

def envC9 : PipelineEnv :=
  { hf_api_key := ""
    response := fun _ _ => .exn
    uuid := fun n => if n == 0 then "id-zero" else "id-one"
    insert_fails := true
    now := 7 }

/-- C9 witness: no credential (so generation succeeds via the rule-based
path), a failing insert, no supplied session id, distinct uuids. -/
theorem C9_insert_failure_regenerates_witness :
    (isOkB (computeDocumentation envC9 (promptOf reqC1)) = true
     ∧ envC9.insert_fails = true
     ∧ reqC1.session_id = none
     ∧ envC9.uuid 0 ≠ envC9.uuid 1)
    ∧ (generate_documentation envC9 reqC1
         = .ok (⟨fallbackDoc "MAINFRAME-PROGRAM" false false, envC9.uuid 1⟩, none)
       ∧ pyIn "MAINFRAME-PROGRAM" (fallbackDoc "MAINFRAME-PROGRAM" false false) = true
       ∧ sidOf (generate_documentation envC9 reqC1) = envC9.uuid 1
       ∧ sidOf (generate_documentation envC9 reqC1) ≠ envC9.uuid 0) := by
  have hok : isOkB (computeDocumentation envC9 (promptOf reqC1)) = true := by decide
  exact ⟨⟨hok, rfl, rfl, by decide⟩,
    C9_insert_failure_regenerates envC9 reqC1 hok rfl rfl (by decide)⟩

/-- The unstructured branch of the formatter, as one equation: first slice
into Overview, second slice (or the advisory default) into AI Insights,
fixed text elsewhere.  Restates the else-branch of format_llm_response for
rewriting. -/
theorem format_unstructured (raw p : String)
    (h1 : pyIn "1. Overview" raw = false) (h2 : pyIn "Overview" raw = false) :
    format_llm_response raw p
      = "=== AI-GENERATED MAINFRAME DOCUMENTATION ===\n\n1. Overview\n"
        ++ pyTake raw 300
        ++ "...\n\n2. Analysis\nThe LLM has analyzed the provided mainframe code and generated insights about its functionality and structure.\n\n3. AI Insights\n"
        ++ (if 300 < pyLen raw then pySlice raw 300 600
            else "Additional analysis and recommendations based on code patterns.")
        ++ "\n\n4. Recommendations\n- Review the generated analysis for accuracy\n- Consider the AI suggestions for code optimization\n- Validate business logic alignment\n\n(Note: This documentation was generated using Hugging Face LLM)\n" := by
  unfold format_llm_response
  rw [h1, h2]
  rfl

/-- C3 counterexample: a raw remote text without an Overview marker is not
wrapped into the canonical seven-section layout — the wrapped output
contains none of the headings Job Flow, Transformations, Validations,
Inputs & Outputs, Dependencies, Special Notes. -/
theorem C3_seven_sections_counterexample :
    pyIn "Overview" "analysis of the mainframe job" = false
    ∧ pyIn "Job Flow" (format_llm_response "analysis of the mainframe job" "") = false
    ∧ pyIn "Transformations" (format_llm_response "analysis of the mainframe job" "") = false
    ∧ pyIn "Validations" (format_llm_response "analysis of the mainframe job" "") = false
    ∧ pyIn "Inputs & Outputs" (format_llm_response "analysis of the mainframe job" "") = false
    ∧ pyIn "Dependencies" (format_llm_response "analysis of the mainframe job" "") = false
    ∧ pyIn "Special Notes" (format_llm_response "analysis of the mainframe job" "") = false := by
  refine ⟨by decide, by decide, by decide, by decide, by decide, by decide, by decide⟩

/-- C3 amended: a raw remote text without an Overview marker is wrapped
into the four-section layout Overview / Analysis / AI Insights /
Recommendations, with the first 300 characters of the raw text in
Overview and the next 300 characters (or a fixed advisory line when the
text is 300 characters or shorter) in AI Insights. -/
theorem C3_wraps_four_sections (raw p : String) (h : pyIn "Overview" raw = false) :
    pyIn "1. Overview" (format_llm_response raw p) = true
    ∧ pyIn "2. Analysis" (format_llm_response raw p) = true
    ∧ pyIn "3. AI Insights" (format_llm_response raw p) = true
    ∧ pyIn "4. Recommendations" (format_llm_response raw p) = true
    ∧ pyIn (pyTake raw 300) (format_llm_response raw p) = true
    ∧ (300 < pyLen raw → pyIn (pySlice raw 300 600) (format_llm_response raw p) = true)
    ∧ (¬ 300 < pyLen raw →
        pyIn "Additional analysis and recommendations based on code patterns."
          (format_llm_response raw p) = true) := by
  have h1 : pyIn "1. Overview" raw = false := by
    cases hx : pyIn "1. Overview" raw
    · rfl
    · have : pyIn "Overview" raw = true := pyIn_trans _ _ _ (by decide) hx
      rw [this] at h
      exact absurd h (by simp)
  rw [format_unstructured raw p h1 h]
  refine ⟨?_, ?_, ?_, ?_, ?_, ?_, ?_⟩
  · apply pyIn_append_left
    apply pyIn_append_left
    apply pyIn_append_left
    apply pyIn_append_left
    decide
  · apply pyIn_append_left
    apply pyIn_append_left
    apply pyIn_append_right
    decide
  · apply pyIn_append_left
    apply pyIn_append_left
    apply pyIn_append_right
    decide
  · apply pyIn_append_right
    decide
  · apply pyIn_append_left
    apply pyIn_append_left
    apply pyIn_append_left
    apply pyIn_append_right
    exact pyIn_self _
  · intro h300
    rw [if_pos h300]
    apply pyIn_append_left
    apply pyIn_append_right
    exact pyIn_self _
  · intro h300
    rw [if_neg h300]
    apply pyIn_append_left
    apply pyIn_append_right
    decide

/-- C3 witness: both hypotheses of the amended statement discharged on the
concrete raw text of the counterexample. -/
theorem C3_wraps_four_sections_witness :
    pyIn "Overview" "analysis of the mainframe job" = false
    ∧ pyIn "1. Overview" (format_llm_response "analysis of the mainframe job" "") = true
    ∧ pyIn "3. AI Insights" (format_llm_response "analysis of the mainframe job" "") = true
    ∧ pyIn (pyTake "analysis of the mainframe job" 300)
        (format_llm_response "analysis of the mainframe job" "") = true := by
  have h := C3_wraps_four_sections "analysis of the mainframe job" "" (by decide)
  exact ⟨by decide, h.1, h.2.2.1, h.2.2.2.2.1⟩

def envC4 : PipelineEnv :=
  { hf_api_key := "k"
    response := fun _ _ => .resp 200 (some (.jlist [.jdict [("generated_text", .jstr "hi")]]))
    uuid := fun _ => "u"
    insert_fails := false
    now := 0 }

def reqC4 : DocumentationRequest :=
  { jcl_code := none, proc_code := none, program_code := "MOVE A TO B.",
    session_id := some "s4" }

/-- C4: a remote result of usable shape whose generated text is 2
characters long — far under the roughly-200-character threshold — is NOT
discarded: the pipeline returns the formatted remote content, not the
rule-based fallback, because the formatter's banner always satisfies the
meaningfulness check, making the discard branch unreachable. -/
theorem C4_short_remote_kept :
    pyLen "hi" < 200
    ∧ docOf (generate_documentation envC4 reqC4) = format_llm_response "hi" (promptOf reqC4)
    ∧ pyIn "RULE-BASED ANALYSIS" (docOf (generate_documentation envC4 reqC4)) = false
    ∧ isOkP (generate_documentation envC4 reqC4) = true := by
  refine ⟨by decide, (pyEq_iff _ _).mp (by decide), by decide, by decide⟩

/-- The extraction loop uses exactly the first line containing the marker:
it is List.find? on the line list. -/
theorem extract_eq_find (lines : List String) :
    extractProgramName lines
      = (match lines.find? (fun l => pyIn "PROGRAM-ID." l) with
         | some l => extractFromLine l
         | none => .ok "MAINFRAME-PROGRAM") := by
  induction lines with
  | nil => rfl
  | cons l rest ih =>
    rw [extractProgramName]
    cases hpl : pyIn "PROGRAM-ID." l with
    | true =>
      rw [List.find?_cons_of_pos _ (by simpa using hpl)]
      simp
    | false =>
      rw [List.find?_cons_of_neg _ (by simpa using hpl)]
      simpa using ih

/-- C7 counterexample: an input containing the declaration line
PROGRAM-ID. PAYROLL001. whose generated document nevertheless does not
contain PAYROLL001, because an earlier line carries the marker first. -/
theorem C7_program_name_counterexample :
    ("PROGRAM-ID. PAYROLL001."
        ∈ pySplitOn "PROGRAM-ID. OTHER.\nPROGRAM-ID. PAYROLL001." "\n")
    ∧ isOkB (generate_fallback_documentation
        "PROGRAM-ID. OTHER.\nPROGRAM-ID. PAYROLL001.") = true
    ∧ pyIn "PAYROLL001" (getOkStr (generate_fallback_documentation
        "PROGRAM-ID. OTHER.\nPROGRAM-ID. PAYROLL001.")) = false := by
  refine ⟨by decide, by decide, by decide⟩

/-- C7 amended: when the FIRST line containing the marker is the
declaration PROGRAM-ID. PAYROLL001., the generated Overview contains the
token PAYROLL001; when no line contains the marker, it contains the
generic placeholder MAINFRAME-PROGRAM; scanning stops at the first
matching line (the scan is List.find?). -/
theorem C7_program_name_first_match (prompt : String) :
    ((pySplitOn prompt "\n").find? (fun l => pyIn "PROGRAM-ID." l)
        = some "PROGRAM-ID. PAYROLL001." →
      generate_fallback_documentation prompt
        = .ok (fallbackDoc "PAYROLL001."
            (pyIn "JCL CODE:" prompt) (pyIn "PROC CODE:" prompt))
      ∧ pyIn "PAYROLL001" (getOkStr (generate_fallback_documentation prompt)) = true)
    ∧ ((pySplitOn prompt "\n").find? (fun l => pyIn "PROGRAM-ID." l) = none →
      generate_fallback_documentation prompt
        = .ok (fallbackDoc "MAINFRAME-PROGRAM"
            (pyIn "JCL CODE:" prompt) (pyIn "PROC CODE:" prompt))
      ∧ pyIn "MAINFRAME-PROGRAM" (getOkStr (generate_fallback_documentation prompt)) = true) := by
  constructor
  · intro hf
    have hx : extractProgramName (pySplitOn prompt "\n") = .ok "PAYROLL001." := by
      rw [extract_eq_find, hf]
      decide
    have he : generate_fallback_documentation prompt
        = .ok (fallbackDoc "PAYROLL001."
            (pyIn "JCL CODE:" prompt) (pyIn "PROC CODE:" prompt)) := by
      simp only [generate_fallback_documentation]
      rw [hx]
    refine ⟨he, ?_⟩
    rw [he]
    simp only [getOkStr]
    unfold fallbackDoc
    apply pyIn_append_left
    apply pyIn_append_left
    apply pyIn_append_left
    apply pyIn_append_left
    apply pyIn_append_left
    apply pyIn_append_left
    apply pyIn_append_right
    decide
  · intro hf
    have hx : extractProgramName (pySplitOn prompt "\n") = .ok "MAINFRAME-PROGRAM" := by
      rw [extract_eq_find, hf]
    have he : generate_fallback_documentation prompt
        = .ok (fallbackDoc "MAINFRAME-PROGRAM"
            (pyIn "JCL CODE:" prompt) (pyIn "PROC CODE:" prompt)) := by
      simp only [generate_fallback_documentation]
      rw [hx]
    refine ⟨he, ?_⟩
    rw [he]
    simp only [getOkStr]
    unfold fallbackDoc
    apply pyIn_append_left
    apply pyIn_append_left
    apply pyIn_append_left
    apply pyIn_append_left
    apply pyIn_append_left
    apply pyIn_append_left
    apply pyIn_append_right
    exact pyIn_self _

/-- C7 witness: both branches of the amended statement discharged on
concrete inputs — a prompt whose first marker line declares PAYROLL001,
and a prompt with no marker line. -/
theorem C7_program_name_first_match_witness :
    ((pySplitOn "PROGRAM-ID. PAYROLL001." "\n").find? (fun l => pyIn "PROGRAM-ID." l)
        = some "PROGRAM-ID. PAYROLL001."
     ∧ pyIn "PAYROLL001"
         (getOkStr (generate_fallback_documentation "PROGRAM-ID. PAYROLL001.")) = true)
    ∧ ((pySplitOn "MOVE A TO B." "\n").find? (fun l => pyIn "PROGRAM-ID." l) = none
     ∧ pyIn "MAINFRAME-PROGRAM"
         (getOkStr (generate_fallback_documentation "MOVE A TO B.")) = true) :=
  ⟨⟨by decide, ((C7_program_name_first_match "PROGRAM-ID. PAYROLL001.").1 (by decide)).2⟩,
   ⟨by decide, ((C7_program_name_first_match "MOVE A TO B.").2 (by decide)).2⟩⟩

/-- C6: for every candidate the client issues one request, retries that
same candidate exactly once more if and only if the first response carries
the warming-up status 503, advances to the next candidate on any
non-usable outcome, tries candidates strictly in the given order, and
exits early on the first usable result (later candidates receive no
request). -/
theorem C6_candidate_cascade (response : String → Nat → HttpOutcome) (prompt : String) :
    (∀ m, (tryModel response m prompt).1.map HttpCall.url =
        (match response m 0 with
         | .resp s _ => if s == 503 then [m, m] else [m]
         | .exn => [m]))
    ∧ (∀ models, (tryModels response prompt models).2 = none →
        (tryModels response prompt models).1 = flatTrace response prompt models
        ∧ ∀ m ∈ models, (tryModel response m prompt).2 = none)
    ∧ (∀ models d, (tryModels response prompt models).2 = some d →
        ∃ pre m post, models = pre ++ m :: post
          ∧ (∀ p ∈ pre, (tryModel response p prompt).2 = none)
          ∧ (tryModel response m prompt).2 = some d
          ∧ (tryModels response prompt models).1
              = flatTrace response prompt pre ++ (tryModel response m prompt).1) := by
  refine ⟨?_, ?_, ?_⟩
  · intro m
    unfold tryModel
    cases h0 : response m 0 with
    | exn => simp
    | resp s b =>
      by_cases h503 : (s == 503) = true
      · simp only [h503, if_true]
        cases h1 : response m 1 <;> simp
      · simp only [h503]
        by_cases h200 : (s == 200) = true <;> simp [h200]
  · intro models
    induction models with
    | nil => intro _; simp [tryModels, flatTrace]
    | cons m rest ih =>
      intro h
      rw [tryModels] at h ⊢
      rcases hm : tryModel response m prompt with ⟨calls, r⟩
      rw [hm] at h
      cases r with
      | some doc => simp at h
      | none =>
        simp at h ⊢
        rcases ih h with ⟨h1, h2⟩
        exact ⟨by rw [h1, flatTrace, hm], by rw [hm], h2⟩
  · intro models d
    induction models with
    | nil => intro h; simp [tryModels] at h
    | cons m rest ih =>
      intro h
      rw [tryModels] at h
      rcases hm : tryModel response m prompt with ⟨calls, r⟩
      rw [hm] at h
      cases r with
      | some doc =>
        simp only [Option.some.injEq] at h
        refine ⟨[], m, rest, rfl, by simp, by rw [hm, h], ?_⟩
        rw [tryModels, hm, flatTrace]
        simp
      | none =>
        simp only at h
        rcases ih h with ⟨pre, m', post, hsplit, hpre, hsome, htrace⟩
        refine ⟨m :: pre, m', post, by simp [hsplit], ?_, hsome, ?_⟩
        · intro p hp
          rcases List.mem_cons.mp hp with rfl | hp
          · rw [hm]
          · exact hpre p hp
        · rw [tryModels, hm]
          simp only
          rw [htrace, flatTrace, hm]
          simp

/-- C6 witness: with an oracle that always answers 503 and then 404, a
candidate is requested exactly twice, and with an oracle that always
answers 404 every candidate of a two-element list is tried in order with
no usable result. -/
theorem C6_candidate_cascade_witness :
    ((tryModel (fun _ _ => .resp 503 none) "m" "p").1.map HttpCall.url
       = (match (fun (_ : String) (_ : Nat) => HttpOutcome.resp 503 none) "m" 0 with
          | .resp s _ => if s == 503 then ["m", "m"] else ["m"]
          | .exn => ["m"]))
    ∧ (tryModels (fun _ _ => .resp 404 none) "p" ["a", "b"]).2 = none
    ∧ ((tryModels (fun _ _ => .resp 404 none) "p" ["a", "b"]).1
         = flatTrace (fun _ _ => .resp 404 none) "p" ["a", "b"]
       ∧ ∀ m ∈ ["a", "b"], (tryModel (fun _ _ => .resp 404 none) m "p").2 = none) :=
  ⟨(C6_candidate_cascade (fun _ _ => .resp 503 none) "p").1 "m", rfl,
   (C6_candidate_cascade (fun _ _ => .resp 404 none) "p").2.1 ["a", "b"] rfl⟩

/-- C10: every request body sent to a candidate endpoint is exactly the
fixed preamble plus the first 500 characters of the prompt plus an
ellipsis — program code beyond that prefix is never transmitted — while
a successful result is still formatted against the full prompt or is the
rule-based fallback of the full prompt. -/
theorem C10_payload_truncation (response : String → Nat → HttpOutcome) (prompt : String) :
    (∀ c ∈ (call_hugging_face_api response prompt).1,
        c.body = "Generate mainframe documentation for: " ++ pyTake prompt 500 ++ "...")
    ∧ (∀ d, (call_hugging_face_api response prompt).2 = .ok d →
        (∃ s, d = format_llm_response s prompt) ∨
          generate_fallback_documentation prompt = .ok d) := by
  constructor
  · intro c hc
    have hb : c.body = shortPrompt prompt := by
      apply tryModels_body response prompt models_to_try c
      rw [call_hugging_face_api] at hc
      rcases ht : tryModels response prompt models_to_try with ⟨calls, r⟩
      rw [ht] at hc
      cases r <;> simpa using hc
    exact hb
  · exact fun d h => callHF_ok response prompt d h

/-- C10 witness: with an oracle that always fails at transport level and a
short prompt, the first issued request is to the primary model and carries
the truncated payload, and the overall result is the rule-based fallback
of the full prompt. -/
theorem C10_payload_truncation_witness :
    (HttpCall.mk HF_MODEL_URL "Generate mainframe documentation for: PROG..." .exn
        ∈ (call_hugging_face_api (fun _ _ => .exn) "PROG").1)
    ∧ (HttpCall.mk HF_MODEL_URL "Generate mainframe documentation for: PROG..." .exn).body
        = "Generate mainframe documentation for: " ++ pyTake "PROG" 500 ++ "..."
    ∧ (call_hugging_face_api (fun _ _ => .exn) "PROG").2
        = .ok (fallbackDoc "MAINFRAME-PROGRAM" false false)
    ∧ ((∃ s, fallbackDoc "MAINFRAME-PROGRAM" false false = format_llm_response s "PROG") ∨
        generate_fallback_documentation "PROG"
          = .ok (fallbackDoc "MAINFRAME-PROGRAM" false false)) := by
  refine ⟨?_, ?_, ?_, ?_⟩
  · exact List.Mem.head _
  · exact (C10_payload_truncation (fun _ _ => .exn) "PROG").1 _ (List.Mem.head _)
  · rfl
  · exact (C10_payload_truncation (fun _ _ => .exn) "PROG").2 _ rfl

end MfDoc
